import Mathlib

/-!
Verification development for the IAM limits lint rule
(`src/cfnlint/rules/resources/iam/Limits.py`).

The rule checks four limits on IAM resources in a CloudFormation template:
`ManagedPolicyArns` length at most 10, `InstanceProfile.Roles` length at most
1, `User.Groups` length at most 10, and the serialized length of
`Role.AssumeRolePolicyDocument` at most 2048 characters.  The first three
resolve conditional branches through the template collaborator
`get_object_without_conditions`; the last serializes the raw property value
to canonical JSON text.

The embedding below translates the rule's code directly.  The template
collaborator (`get_resources`, `get_object_without_conditions`) and the
standard JSON serializer live outside the rule's source file; they are
modelled from the specification's contracts, as noted on each definition.
-/

namespace IamLimits

/-- A CloudFormation template value as produced by the YAML/JSON parser:
strings, integers, booleans, null, calendar dates (YAML parses date
literals into date objects), lists, string-keyed maps in declaration
order, and `other` for any object that is none of these (not JSON
serializable); the carried string is the object's class name. -/
inductive CfnValue where
  | str : String → CfnValue
  | int : Int → CfnValue
  | bool : Bool → CfnValue
  | null : CfnValue
  | date : Nat → Nat → Nat → CfnValue
  | list : List CfnValue → CfnValue
  | map : List (String × CfnValue) → CfnValue
  | other : String → CfnValue

/-- `dict.get(key)`: first value bound to `key`, or `none`. -/
def getKey : List (String × CfnValue) → String → Option CfnValue
  | [], _ => none
  | (k, v) :: rest, key => if k = key then some v else getKey rest key

/-- Left-pad the decimal rendering of `n` with zeros to width `w`. -/
def padNum (w n : Nat) : String :=
  let s := toString n
  String.mk (List.replicate (w - s.length) '0') ++ s

/-- `datetime.date.isoformat()`: `YYYY-MM-DD` with zero padding. -/
def isoformat (y m d : Nat) : String :=
  padNum 4 y ++ "-" ++ padNum 2 m ++ "-" ++ padNum 2 d

/-- Lowercase hexadecimal digit. -/
def hexDigit (n : Nat) : Char :=
  if n < 10 then Char.ofNat (48 + n) else Char.ofNat (87 + n % 16)

/-- Four lowercase hex digits of `n < 0x10000`. -/
def hex4 (n : Nat) : String :=
  String.mk [hexDigit (n / 4096 % 16), hexDigit (n / 256 % 16),
             hexDigit (n / 16 % 16), hexDigit (n % 16)]

/-- Modelled from the spec: canonical JSON text rendering of one character
(the `json.dumps` default, `ensure_ascii` on): the two-character escapes
for quote, backslash, backspace, tab, newline, form feed and carriage
return; `\uXXXX` for the remaining control characters and for every
character outside printable ASCII, with surrogate pairs above `0xFFFF`. -/
def jsonEscapeChar (c : Char) : String :=
  if c = '"' then "\\\""
  else if c = '\\' then "\\\\"
  else if c.toNat = 8 then "\\b"
  else if c.toNat = 9 then "\\t"
  else if c.toNat = 10 then "\\n"
  else if c.toNat = 12 then "\\f"
  else if c.toNat = 13 then "\\r"
  else if c.toNat < 32 ∨ c.toNat > 126 then
    if c.toNat ≤ 65535 then "\\u" ++ hex4 c.toNat
    else
      let v := c.toNat - 65536
      "\\u" ++ hex4 (55296 + v / 1024) ++ "\\u" ++ hex4 (56320 + v % 1024)
  else String.singleton c

/-- Canonical JSON string literal: escaped content between double quotes. -/
def jsonQuote (s : String) : String :=
  "\"" ++ String.join (s.toList.map jsonEscapeChar) ++ "\""

mutual

/-- Modelled from the spec: `json.dumps(v, default=_serialize_date)` with the
default separators — the canonical JSON text of a template value.  Dates go
through the rule's `_serialize_date` fallback, which renders ISO-8601 text
(then serialized as a JSON string); a non-serializable object raises
`TypeError('Object of type {} is not JSON serializable')`, modelled as the
`Except.error` carrying that message. -/
def dumps : CfnValue → Except String String
  | .str s => .ok (jsonQuote s)
  | .int i => .ok (toString i)
  | .bool b => .ok (if b then "true" else "false")
  | .null => .ok "null"
  | .date y m d => .ok (jsonQuote (isoformat y m d))
  | .list xs => do
      let parts ← dumpsElems xs
      pure ("[" ++ String.intercalate ", " parts ++ "]")
  | .map kvs => do
      let parts ← dumpsPairs kvs
      pure ("\x7b" ++ String.intercalate ", " parts ++ "\x7d")
  | .other cls => .error ("Object of type " ++ cls ++ " is not JSON serializable")

/-- Serialize the elements of a JSON array in order; first failure wins. -/
def dumpsElems : List CfnValue → Except String (List String)
  | [] => .ok []
  | x :: xs => do
      let hd ← dumps x
      let tl ← dumpsElems xs
      pure (hd :: tl)

/-- Serialize the `"key": value` members of a JSON object in order. -/
def dumpsPairs : List (String × CfnValue) → Except String (List String)
  | [] => .ok []
  | (k, v) :: rest => do
      let hd ← dumps v
      let tl ← dumpsPairs rest
      pure ((jsonQuote k ++ ": " ++ hd) :: tl)

end

mutual

/-- A value is JSON serializable (under the rule's date fallback) when no
`other` leaf occurs anywhere inside it. -/
def serializable : CfnValue → Bool
  | .list xs => serializableElems xs
  | .map kvs => serializablePairs kvs
  | .other _ => false
  | _ => true

/-- All elements serializable. -/
def serializableElems : List CfnValue → Bool
  | [] => true
  | x :: xs => serializable x && serializableElems xs

/-- All values serializable. -/
def serializablePairs : List (String × CfnValue) → Bool
  | [] => true
  | (_, v) :: rest => serializable v && serializablePairs rest

end

/-- A reported violation: structural path plus message (`RuleMatch`). -/
structure RuleMatch where
  path : List String
  message : String
deriving DecidableEq, Repr

/-- Modelled from the spec: one property branch returned by the external
branch resolver `get_object_without_conditions` — the resolved property bag
(`Object`) and the condition assignment that reaches it (`Scenario`,
`none` for the unconditional case), an ordered mapping from condition
name to boolean. -/
structure PropertySet where
  Object : List (String × CfnValue)
  Scenario : Option (List (String × Bool))

/-- A resource declaration as handed over by the selector; the rule only
reads its `Properties` bag, absent meaning `.get('Properties', {})`
falls back to the empty bag. -/
structure Resource where
  Properties : Option (List (String × CfnValue))

/-- Modelled from the spec: the template model collaborator.
`get_resources ty` returns the template's resources of declared type `ty`
as an ordered name-to-declaration mapping; `get_object_without_conditions`
is the branch-enumeration primitive, returning every mutually exclusive
conditional branch of a property bag (a single `Scenario = none` branch
when nothing branches).  Both live outside the rule's source file and are
consumed as opaque contracts. -/
structure Cfn where
  get_resources : String → List (String × Resource)
  get_object_without_conditions : List (String × CfnValue) → List PropertySet

/-- Python `str(b)` on a boolean. -/
def pyBool (b : Bool) : String := if b then "True" else "False"

/-- `' and '.join(['when condition "%s" is %s' % (k, v) for (k, v) in scenario.items()])` -/
def scenario_text (sc : List (String × Bool)) : String :=
  String.intercalate " and "
    (sc.map fun kv => "when condition \"" ++ kv.1 ++ "\" is " ++ pyBool kv.2)

/-- The loop of `check_managed_policy_arns` over the resolved property
sets: a branch whose `ManagedPolicyArns` value is a list longer than 10
appends one match at `path + ['ManagedPolicyArns']`, with the base
message when unconditional and `message.format(scenario_text)` otherwise. -/
def mpaLoop (path : List String) : List PropertySet → List RuleMatch
  | [] => []
  | ps :: rest =>
    (match getKey ps.Object "ManagedPolicyArns" with
     | some (.list managed_policies) =>
        if managed_policies.length > 10 then
          match ps.Scenario with
          | none =>
              [⟨path ++ ["ManagedPolicyArns"],
                "IAM resources cannot have more than 10 ManagedPolicyArns"⟩]
          | some sc =>
              [⟨path ++ ["ManagedPolicyArns"],
                "IAM resources cannot have more than 10 ManagedPolicyArns when "
                  ++ scenario_text sc⟩]
        else []
     | _ => []) ++ mpaLoop path rest

/-- `check_managed_policy_arns`: absent property means no matches;
otherwise resolve the branches and run the loop. -/
def check_managed_policy_arns (properties : List (String × CfnValue))
    (path : List String) (cfn : Cfn) : List RuleMatch :=
  if (getKey properties "ManagedPolicyArns").isNone then []
  else mpaLoop path (cfn.get_object_without_conditions properties)

/-- The loop of `check_instance_profile_roles`: threshold 1 on `Roles`. -/
def iprLoop (path : List String) : List PropertySet → List RuleMatch
  | [] => []
  | ps :: rest =>
    (match getKey ps.Object "Roles" with
     | some (.list roles) =>
        if roles.length > 1 then
          match ps.Scenario with
          | none =>
              [⟨path ++ ["Roles"], "InstanceProfile can only have one role attached"⟩]
          | some sc =>
              [⟨path ++ ["Roles"],
                "InstanceProfile can only have one role attached when "
                  ++ scenario_text sc⟩]
        else []
     | _ => []) ++ iprLoop path rest

/-- `check_instance_profile_roles`. -/
def check_instance_profile_roles (properties : List (String × CfnValue))
    (path : List String) (cfn : Cfn) : List RuleMatch :=
  if (getKey properties "Roles").isNone then []
  else iprLoop path (cfn.get_object_without_conditions properties)

/-- The loop of `check_user_groups`: threshold 10 on `Groups`. -/
def ugLoop (path : List String) : List PropertySet → List RuleMatch
  | [] => []
  | ps :: rest =>
    (match getKey ps.Object "Groups" with
     | some (.list groups) =>
        if groups.length > 10 then
          match ps.Scenario with
          | none =>
              [⟨path ++ ["Groups"], "User can be a member of maximum 10 groups"⟩]
          | some sc =>
              [⟨path ++ ["Groups"],
                "User can be a member of maximum 10 groups when "
                  ++ scenario_text sc⟩]
        else []
     | _ => []) ++ ugLoop path rest

/-- `check_user_groups`. -/
def check_user_groups (properties : List (String × CfnValue))
    (path : List String) (cfn : Cfn) : List RuleMatch :=
  if (getKey properties "Groups").isNone then []
  else ugLoop path (cfn.get_object_without_conditions properties)

/-- `check_role_assume_role_policy_document`: the raw property value is
serialized with `json.dumps(..., default=_serialize_date)`; a serialized
length above 2048 yields one unconditional match.  The template
collaborator argument is unused (`_` in the source); a `TypeError` from
serialization propagates to the caller as the error branch. -/
def check_role_assume_role_policy_document (properties : List (String × CfnValue))
    (path : List String) (_cfn : Cfn) : Except String (List RuleMatch) :=
  match getKey properties "AssumeRolePolicyDocument" with
  | none => .ok []
  | some document => do
      let s ← dumps document
      pure (if s.length > 2048 then
        [⟨path ++ ["AssumeRolePolicyDocument"],
          "Role trust policy JSON text cannot be longer than 2048 characters"⟩]
      else [])

/-- Identifier for one of the four predicate methods. -/
inductive Check where
  | managedPolicyArns
  | userGroups
  | instanceProfileRoles
  | assumeRolePolicyDocument
deriving DecidableEq, Repr

/-- Invoke one predicate method.  The three list-length checks never
raise; only the trust-policy check can, so the others are wrapped in
`Except.ok`. -/
def runCheck (c : Check) (properties : List (String × CfnValue))
    (path : List String) (cfn : Cfn) : Except String (List RuleMatch) :=
  match c with
  | .managedPolicyArns => .ok (check_managed_policy_arns properties path cfn)
  | .userGroups => .ok (check_user_groups properties path cfn)
  | .instanceProfileRoles => .ok (check_instance_profile_roles properties path cfn)
  | .assumeRolePolicyDocument => check_role_assume_role_policy_document properties path cfn

/-- The `types` dict of `match`, in insertion order. -/
def typesTable : List (String × List Check) :=
  [("AWS::IAM::User", [Check.managedPolicyArns, Check.userGroups]),
   ("AWS::IAM::Group", [Check.managedPolicyArns]),
   ("AWS::IAM::Role", [Check.managedPolicyArns, Check.assumeRolePolicyDocument]),
   ("AWS::IAM::InstanceProfile", [Check.instanceProfileRoles])]

/-- Inner loop of `match`: run the checks of one resource in declared
order, extending the match list; a raised error discards the collected
matches and propagates, as a Python exception would. -/
def checksLoop (properties : List (String × CfnValue)) (path : List String)
    (cfn : Cfn) : List Check → Except String (List RuleMatch)
  | [] => .ok []
  | c :: cs => do
      let ms ← runCheck c properties path cfn
      let rest ← checksLoop properties path cfn cs
      pure (ms ++ rest)

/-- Middle loop of `match`: the resources of one type in selector-return
order, each checked at path `['Resources', name, 'Properties']` with its
`Properties` bag (default empty). -/
def resourcesLoop (cfn : Cfn) (checks : List Check) :
    List (String × Resource) → Except String (List RuleMatch)
  | [] => .ok []
  | (resource_name, resource_object) :: rest => do
      let ms ← checksLoop (resource_object.Properties.getD [])
                  ["Resources", resource_name, "Properties"] cfn checks
      let more ← resourcesLoop cfn checks rest
      pure (ms ++ more)

/-- Outer loop of `match`: the resource types in the table's declared
order. -/
def typesLoop (cfn : Cfn) : List (String × List Check) → Except String (List RuleMatch)
  | [] => .ok []
  | (resource_type, check_list) :: rest => do
      let ms ← resourcesLoop cfn check_list (cfn.get_resources resource_type)
      let more ← typesLoop cfn rest
      pure (ms ++ more)

/-- `Limits.match`: the rule's evaluation entry point. -/
def matchRule (cfn : Cfn) : Except String (List RuleMatch) :=
  typesLoop cfn typesTable

/-- Two invocations of the entry point on the same unmutated template
model, returned side by side. -/
def evaluateTwice (cfn : Cfn) :
    Except String (List RuleMatch) × Except String (List RuleMatch) :=
  (matchRule cfn, matchRule cfn)

/-- Is this (optional) value a list?  Mirrors `isinstance(v, list)` on the
result of `dict.get`. -/
def isListVal : Option CfnValue → Bool
  | some (.list _) => true
  | _ => false

/-- The result of one predicate invocation with a raised error replaced by
the empty match list; used to state the dispatcher's output ordering. -/
def runCheckOk (c : Check) (properties : List (String × CfnValue))
    (path : List String) (cfn : Cfn) : List RuleMatch :=
  match runCheck c properties path cfn with
  | .ok ms => ms
  | .error _ => []

/-- Every `AssumeRolePolicyDocument` of every `AWS::IAM::Role` resource in
the template is JSON serializable (so no check raises). -/
def docsOk (cfn : Cfn) : Prop :=
  ∀ nr ∈ cfn.get_resources "AWS::IAM::Role", ∀ document : CfnValue,
    getKey ((nr.2).Properties.getD []) "AssumeRolePolicyDocument" = some document →
    serializable document = true

/-- Property bag with eleven policy ARNs, driving the counterexample. -/
def cexProps : List (String × CfnValue) :=
  [("ManagedPolicyArns", CfnValue.list (List.replicate 11 (CfnValue.str "arn")))]

/-- A template model whose branch resolver returns a single branch under
the scenario `IsProd = True`. -/
def cexCfn : Cfn :=
  ⟨fun _ => [], fun props => [⟨props, some [("IsProd", true)]⟩]⟩

/-- The property bag of the `MyUser` end-to-end scenario: an unconditional
`ManagedPolicyArns` list of 11 ARNs. -/
def myUserProps : List (String × CfnValue) :=
  [("ManagedPolicyArns",
    CfnValue.list (List.replicate 11 (CfnValue.str "arn:aws:iam::aws:policy/p")))]

/-- The template of the `MyUser` end-to-end scenario: one `AWS::IAM::User`
named `MyUser`; the branch resolver returns the single unconditional
branch, as the spec's branch-resolution contract prescribes for a
non-branching property bag. -/
def myUserCfn : Cfn :=
  ⟨fun ty => if ty = "AWS::IAM::User" then [("MyUser", ⟨some myUserProps⟩)] else [],
   fun props => [⟨props, none⟩]⟩

/-- A template with one `AWS::IAM::InstanceProfile` carrying two roles,
no branching. -/
def ipCfn : Cfn :=
  ⟨fun ty => if ty = "AWS::IAM::InstanceProfile" then
      [("IP", ⟨some [("Roles", CfnValue.list [CfnValue.str "r1", CfnValue.str "r2"])]⟩)]
    else [],
   fun props => [⟨props, none⟩]⟩

/-! ## Helper lemmas -/

theorem mpaLoop_eq_bind (path : List String) (pss : List PropertySet) :
    mpaLoop path pss = pss.flatMap fun ps => mpaLoop path [ps] := by
  induction pss with
  | nil => rfl
  | cons ps rest ih => simp [mpaLoop, ih]

theorem iprLoop_eq_bind (path : List String) (pss : List PropertySet) :
    iprLoop path pss = pss.flatMap fun ps => iprLoop path [ps] := by
  induction pss with
  | nil => rfl
  | cons ps rest ih => simp [iprLoop, ih]

theorem ugLoop_eq_bind (path : List String) (pss : List PropertySet) :
    ugLoop path pss = pss.flatMap fun ps => ugLoop path [ps] := by
  induction pss with
  | nil => rfl
  | cons ps rest ih => simp [ugLoop, ih]

theorem check_mpa_eq_bind (properties : List (String × CfnValue)) (path : List String)
    (cfn : Cfn) (h : (getKey properties "ManagedPolicyArns").isSome = true) :
    check_managed_policy_arns properties path cfn =
      (cfn.get_object_without_conditions properties).flatMap fun ps => mpaLoop path [ps] := by
  have hn : (getKey properties "ManagedPolicyArns").isNone = false := by
    cases hk : getKey properties "ManagedPolicyArns" <;> simp_all
  simp [check_managed_policy_arns, hn]
  exact mpaLoop_eq_bind _ _

theorem check_ipr_eq_bind (properties : List (String × CfnValue)) (path : List String)
    (cfn : Cfn) (h : (getKey properties "Roles").isSome = true) :
    check_instance_profile_roles properties path cfn =
      (cfn.get_object_without_conditions properties).flatMap fun ps => iprLoop path [ps] := by
  have hn : (getKey properties "Roles").isNone = false := by
    cases hk : getKey properties "Roles" <;> simp_all
  simp [check_instance_profile_roles, hn]
  exact iprLoop_eq_bind _ _

theorem check_ug_eq_bind (properties : List (String × CfnValue)) (path : List String)
    (cfn : Cfn) (h : (getKey properties "Groups").isSome = true) :
    check_user_groups properties path cfn =
      (cfn.get_object_without_conditions properties).flatMap fun ps => ugLoop path [ps] := by
  have hn : (getKey properties "Groups").isNone = false := by
    cases hk : getKey properties "Groups" <;> simp_all
  simp [check_user_groups, hn]
  exact ugLoop_eq_bind _ _

theorem exists_error_of_isOk_false {α : Type} (x : Except String α)
    (h : x.isOk = false) : ∃ e, x = .error e := by
  cases x with
  | error e => exact ⟨e, rfl⟩
  | ok a => simp [Except.isOk, Except.toBool] at h

theorem ok_of_isOk_true {α : Type} (x : Except String α)
    (h : x.isOk = true) : ∃ a, x = .ok a := by
  cases x with
  | error e => simp [Except.isOk, Except.toBool] at h
  | ok a => exact ⟨a, rfl⟩

mutual

theorem dumps_isOk : (v : CfnValue) → (dumps v).isOk = serializable v
  | .str _ => rfl
  | .int _ => rfl
  | .bool _ => rfl
  | .null => rfl
  | .date _ _ _ => rfl
  | .list xs => by
      have h := dumpsElems_isOk xs
      cases he : dumpsElems xs with
      | error e =>
          rw [he] at h
          simp [dumps, serializable, he, ← h, Except.isOk, Except.toBool, Bind.bind, Except.bind]
      | ok parts =>
          rw [he] at h
          simp [dumps, serializable, he, ← h, Except.isOk, Except.toBool, Bind.bind, Except.bind,
                Pure.pure, Except.pure]
  | .map kvs => by
      have h := dumpsPairs_isOk kvs
      cases he : dumpsPairs kvs with
      | error e =>
          rw [he] at h
          simp [dumps, serializable, he, ← h, Except.isOk, Except.toBool, Bind.bind, Except.bind]
      | ok parts =>
          rw [he] at h
          simp [dumps, serializable, he, ← h, Except.isOk, Except.toBool, Bind.bind, Except.bind,
                Pure.pure, Except.pure]
  | .other _ => rfl

theorem dumpsElems_isOk : (xs : List CfnValue) → (dumpsElems xs).isOk = serializableElems xs
  | [] => rfl
  | x :: xs => by
      have a := dumps_isOk x
      have b := dumpsElems_isOk xs
      cases h1 : dumps x with
      | error e =>
          rw [h1] at a
          simp [dumpsElems, serializableElems, h1, ← a, Except.isOk, Except.toBool,
                Bind.bind, Except.bind]
      | ok s =>
          rw [h1] at a
          cases h2 : dumpsElems xs with
          | error e =>
              rw [h2] at b
              simp [dumpsElems, serializableElems, h1, h2, ← a, ← b, Except.isOk, Except.toBool,
                    Bind.bind, Except.bind]
          | ok parts =>
              rw [h2] at b
              simp [dumpsElems, serializableElems, h1, h2, ← a, ← b, Except.isOk, Except.toBool,
                    Bind.bind, Except.bind, Pure.pure, Except.pure]

theorem dumpsPairs_isOk : (kvs : List (String × CfnValue)) →
    (dumpsPairs kvs).isOk = serializablePairs kvs
  | [] => rfl
  | (k, v) :: rest => by
      have a := dumps_isOk v
      have b := dumpsPairs_isOk rest
      cases h1 : dumps v with
      | error e =>
          rw [h1] at a
          simp [dumpsPairs, serializablePairs, h1, ← a, Except.isOk, Except.toBool,
                Bind.bind, Except.bind]
      | ok s =>
          rw [h1] at a
          cases h2 : dumpsPairs rest with
          | error e =>
              rw [h2] at b
              simp [dumpsPairs, serializablePairs, h1, h2, ← a, ← b, Except.isOk, Except.toBool,
                    Bind.bind, Except.bind]
          | ok parts =>
              rw [h2] at b
              simp [dumpsPairs, serializablePairs, h1, h2, ← a, ← b, Except.isOk, Except.toBool,
                    Bind.bind, Except.bind, Pure.pure, Except.pure]

end

/-! ## Claims -/

/-- C5: when the constrained property name is absent from the property
bag, each predicate returns the empty violation list, for every template
collaborator `cfn` — so the result never depends on branch resolution. -/
theorem absent_property_no_violations (properties : List (String × CfnValue))
    (path : List String) (cfn : Cfn) :
    ((getKey properties "ManagedPolicyArns" = none) →
      check_managed_policy_arns properties path cfn = []) ∧
    ((getKey properties "Roles" = none) →
      check_instance_profile_roles properties path cfn = []) ∧
    ((getKey properties "Groups" = none) →
      check_user_groups properties path cfn = []) ∧
    ((getKey properties "AssumeRolePolicyDocument" = none) →
      check_role_assume_role_policy_document properties path cfn = .ok []) := by
  refine ⟨fun h => ?_, fun h => ?_, fun h => ?_, fun h => ?_⟩
  · simp [check_managed_policy_arns, h]
  · simp [check_instance_profile_roles, h]
  · simp [check_user_groups, h]
  · simp [check_role_assume_role_policy_document, h]

/-- C5 witness: a property bag naming none of the four constrained
properties triggers the no-op case of every predicate. -/
theorem absent_property_no_violations_witness :
    getKey [("Path", CfnValue.str "/")] "ManagedPolicyArns" = none ∧
    check_managed_policy_arns [("Path", CfnValue.str "/")] ["p"] cexCfn = [] :=
  ⟨rfl, (absent_property_no_violations [("Path", CfnValue.str "/")] ["p"] cexCfn).1 rfl⟩

/-- C1: for every resolved branch whose value is a list, each list-length
predicate emits nothing at or below its threshold (10 for
`ManagedPolicyArns`, 1 for `InstanceProfile` roles, 10 for user groups)
and exactly one violation above it, carrying the message selected by the
branch's scenario; and each check is the concatenation of these per-branch
results over all resolved branches. -/
theorem list_limit_threshold_behavior (path : List String) (ps : PropertySet)
    (l : List CfnValue) (properties : List (String × CfnValue)) (cfn : Cfn) :
    (getKey ps.Object "ManagedPolicyArns" = some (CfnValue.list l) →
      ((l.length ≤ 10 → mpaLoop path [ps] = []) ∧
       (10 < l.length → mpaLoop path [ps] =
         [⟨path ++ ["ManagedPolicyArns"],
           match ps.Scenario with
           | none => "IAM resources cannot have more than 10 ManagedPolicyArns"
           | some sc =>
               "IAM resources cannot have more than 10 ManagedPolicyArns when "
                 ++ scenario_text sc⟩]))) ∧
    (getKey ps.Object "Roles" = some (CfnValue.list l) →
      ((l.length ≤ 1 → iprLoop path [ps] = []) ∧
       (1 < l.length → iprLoop path [ps] =
         [⟨path ++ ["Roles"],
           match ps.Scenario with
           | none => "InstanceProfile can only have one role attached"
           | some sc =>
               "InstanceProfile can only have one role attached when "
                 ++ scenario_text sc⟩]))) ∧
    (getKey ps.Object "Groups" = some (CfnValue.list l) →
      ((l.length ≤ 10 → ugLoop path [ps] = []) ∧
       (10 < l.length → ugLoop path [ps] =
         [⟨path ++ ["Groups"],
           match ps.Scenario with
           | none => "User can be a member of maximum 10 groups"
           | some sc =>
               "User can be a member of maximum 10 groups when "
                 ++ scenario_text sc⟩]))) ∧
    ((getKey properties "ManagedPolicyArns").isSome = true →
      check_managed_policy_arns properties path cfn =
        (cfn.get_object_without_conditions properties).flatMap fun q => mpaLoop path [q]) ∧
    ((getKey properties "Roles").isSome = true →
      check_instance_profile_roles properties path cfn =
        (cfn.get_object_without_conditions properties).flatMap fun q => iprLoop path [q]) ∧
    ((getKey properties "Groups").isSome = true →
      check_user_groups properties path cfn =
        (cfn.get_object_without_conditions properties).flatMap fun q => ugLoop path [q]) := by
  refine ⟨fun h => ⟨fun hlen => ?_, fun hlen => ?_⟩,
          fun h => ⟨fun hlen => ?_, fun hlen => ?_⟩,
          fun h => ⟨fun hlen => ?_, fun hlen => ?_⟩,
          check_mpa_eq_bind properties path cfn,
          check_ipr_eq_bind properties path cfn,
          check_ug_eq_bind properties path cfn⟩
  · simp [mpaLoop, h, Nat.not_lt.mpr hlen]
  · cases hsc : ps.Scenario <;> simp [mpaLoop, h, hlen, hsc]
  · simp [iprLoop, h, Nat.not_lt.mpr hlen]
  · cases hsc : ps.Scenario <;> simp [iprLoop, h, hlen, hsc]
  · simp [ugLoop, h, Nat.not_lt.mpr hlen]
  · cases hsc : ps.Scenario <;> simp [ugLoop, h, hlen, hsc]

/-- C1 witness: an unconditional branch with eleven policy ARNs emits
exactly one violation with the base message. -/
theorem list_limit_threshold_behavior_witness :
    getKey cexProps "ManagedPolicyArns" =
      some (CfnValue.list (List.replicate 11 (CfnValue.str "arn"))) ∧
    10 < (List.replicate 11 (CfnValue.str "arn")).length ∧
    mpaLoop ["p"] [⟨cexProps, none⟩] =
      [⟨["p", "ManagedPolicyArns"],
        "IAM resources cannot have more than 10 ManagedPolicyArns"⟩] :=
  ⟨rfl, by decide,
    ((list_limit_threshold_behavior ["p"] ⟨cexProps, none⟩
        (List.replicate 11 (CfnValue.str "arn")) cexProps cexCfn).1 rfl).2 (by decide)⟩

/-- C2 counterexample: on an eleven-entry list resolved under the scenario
`IsProd = True`, the emitted message is the base message followed by
` when when condition "IsProd" is True` — not the suffix
` when "IsProd" is True` the claim states. -/
theorem scenario_suffix_claim_counterexample :
    (check_managed_policy_arns cexProps ["p"] cexCfn).map RuleMatch.message =
      ["IAM resources cannot have more than 10 ManagedPolicyArns when when condition \"IsProd\" is True"] ∧
    (check_managed_policy_arns cexProps ["p"] cexCfn).map RuleMatch.message ≠
      ["IAM resources cannot have more than 10 ManagedPolicyArns when \"IsProd\" is True"] := by
  exact ⟨rfl, by decide⟩

/-- C2 as amended: for a conditional branch that violates a list-length
limit, the message is the base message, the word ` when `, then the
scenario entries in mapping order, each rendered as
`when condition "<name>" is <True|False>`, joined with ` and ` — so a
single-entry scenario yields the suffix
` when when condition "<name>" is <bool>`. -/
theorem scenario_message_actual_format (path : List String) (ps : PropertySet)
    (l : List CfnValue) (sc : List (String × Bool))
    (properties : List (String × CfnValue)) (cfn : Cfn) :
    (getKey ps.Object "ManagedPolicyArns" = some (CfnValue.list l) → 10 < l.length →
      ps.Scenario = some sc →
      mpaLoop path [ps] =
        [⟨path ++ ["ManagedPolicyArns"],
          "IAM resources cannot have more than 10 ManagedPolicyArns when " ++
            String.intercalate " and "
              (sc.map fun kv =>
                "when condition \"" ++ kv.1 ++ "\" is "
                  ++ (if kv.2 then "True" else "False"))⟩]) ∧
    (getKey ps.Object "Roles" = some (CfnValue.list l) → 1 < l.length →
      ps.Scenario = some sc →
      iprLoop path [ps] =
        [⟨path ++ ["Roles"],
          "InstanceProfile can only have one role attached when " ++
            String.intercalate " and "
              (sc.map fun kv =>
                "when condition \"" ++ kv.1 ++ "\" is "
                  ++ (if kv.2 then "True" else "False"))⟩]) ∧
    (getKey ps.Object "Groups" = some (CfnValue.list l) → 10 < l.length →
      ps.Scenario = some sc →
      ugLoop path [ps] =
        [⟨path ++ ["Groups"],
          "User can be a member of maximum 10 groups when " ++
            String.intercalate " and "
              (sc.map fun kv =>
                "when condition \"" ++ kv.1 ++ "\" is "
                  ++ (if kv.2 then "True" else "False"))⟩]) ∧
    scenario_text [("IsProd", true)] = "when condition \"IsProd\" is True" ∧
    ((getKey properties "ManagedPolicyArns").isSome = true →
      check_managed_policy_arns properties path cfn =
        (cfn.get_object_without_conditions properties).flatMap fun q => mpaLoop path [q]) := by
  refine ⟨fun h hlen hsc => ?_, fun h hlen hsc => ?_, fun h hlen hsc => ?_, rfl,
          check_mpa_eq_bind properties path cfn⟩
  · simp [mpaLoop, h, hlen, hsc, scenario_text, pyBool]
  · simp [iprLoop, h, hlen, hsc, scenario_text, pyBool]
  · simp [ugLoop, h, hlen, hsc, scenario_text, pyBool]

/-- C2 witness: the amended format applied to the scenario
`IsProd = True` over eleven ARNs. -/
theorem scenario_message_actual_format_witness :
    getKey cexProps "ManagedPolicyArns" =
      some (CfnValue.list (List.replicate 11 (CfnValue.str "arn"))) ∧
    10 < (List.replicate 11 (CfnValue.str "arn")).length ∧
    (⟨cexProps, some [("IsProd", true)]⟩ : PropertySet).Scenario = some [("IsProd", true)] ∧
    mpaLoop ["p"] [⟨cexProps, some [("IsProd", true)]⟩] =
      [⟨["p", "ManagedPolicyArns"],
        "IAM resources cannot have more than 10 ManagedPolicyArns when when condition \"IsProd\" is True"⟩] :=
  ⟨rfl, by decide, rfl,
    (scenario_message_actual_format ["p"] ⟨cexProps, some [("IsProd", true)]⟩
        (List.replicate 11 (CfnValue.str "arn")) [("IsProd", true)] cexProps cexCfn).1
      rfl (by decide) rfl⟩

/-- C6: a resolved branch whose value is not a list contributes no
violation to any of the three list-length predicates, whatever the value
is; and each check is the concatenation of per-branch results, so such
branches are simply skipped. -/
theorem non_list_branch_skipped (path : List String) (ps : PropertySet)
    (properties : List (String × CfnValue)) (cfn : Cfn) :
    (isListVal (getKey ps.Object "ManagedPolicyArns") = false → mpaLoop path [ps] = []) ∧
    (isListVal (getKey ps.Object "Roles") = false → iprLoop path [ps] = []) ∧
    (isListVal (getKey ps.Object "Groups") = false → ugLoop path [ps] = []) ∧
    ((getKey properties "ManagedPolicyArns").isSome = true →
      check_managed_policy_arns properties path cfn =
        (cfn.get_object_without_conditions properties).flatMap fun q => mpaLoop path [q]) ∧
    ((getKey properties "Roles").isSome = true →
      check_instance_profile_roles properties path cfn =
        (cfn.get_object_without_conditions properties).flatMap fun q => iprLoop path [q]) ∧
    ((getKey properties "Groups").isSome = true →
      check_user_groups properties path cfn =
        (cfn.get_object_without_conditions properties).flatMap fun q => ugLoop path [q]) := by
  refine ⟨fun h => ?_, fun h => ?_, fun h => ?_,
          check_mpa_eq_bind properties path cfn,
          check_ipr_eq_bind properties path cfn,
          check_ug_eq_bind properties path cfn⟩
  · cases hk : getKey ps.Object "ManagedPolicyArns" with
    | none => simp [mpaLoop, hk]
    | some v => rw [hk] at h; cases v <;> simp_all [isListVal, mpaLoop, hk]
  · cases hk : getKey ps.Object "Roles" with
    | none => simp [iprLoop, hk]
    | some v => rw [hk] at h; cases v <;> simp_all [isListVal, iprLoop, hk]
  · cases hk : getKey ps.Object "Groups" with
    | none => simp [ugLoop, hk]
    | some v => rw [hk] at h; cases v <;> simp_all [isListVal, ugLoop, hk]

/-- C6 witness: a branch whose `ManagedPolicyArns` value is an unresolved
intrinsic-function expression (a map) is skipped. -/
theorem non_list_branch_skipped_witness :
    isListVal (getKey [("ManagedPolicyArns",
        CfnValue.map [("Ref", CfnValue.str "SomeParam")])] "ManagedPolicyArns") = false ∧
    mpaLoop ["p"] [⟨[("ManagedPolicyArns", CfnValue.map [("Ref", CfnValue.str "SomeParam")])], none⟩] = [] :=
  ⟨rfl,
    (non_list_branch_skipped ["p"]
        ⟨[("ManagedPolicyArns", CfnValue.map [("Ref", CfnValue.str "SomeParam")])], none⟩
        [] cexCfn).1 rfl⟩

/-- C3: the trust-policy predicate ignores the template collaborator (no
conditional branch resolution), and when the raw `AssumeRolePolicyDocument`
value serializes to `s`, it emits no violation when `s` has at most 2048
characters and exactly one unconditional violation when it has more. -/
theorem trust_policy_size_limit (properties : List (String × CfnValue))
    (path : List String) (cfn cfn2 : Cfn) (document : CfnValue) (s : String) :
    check_role_assume_role_policy_document properties path cfn =
      check_role_assume_role_policy_document properties path cfn2 ∧
    (getKey properties "AssumeRolePolicyDocument" = some document →
      dumps document = .ok s →
      ((s.length ≤ 2048 →
        check_role_assume_role_policy_document properties path cfn = .ok []) ∧
       (2048 < s.length →
        check_role_assume_role_policy_document properties path cfn =
          .ok [⟨path ++ ["AssumeRolePolicyDocument"],
               "Role trust policy JSON text cannot be longer than 2048 characters"⟩]))) := by
  refine ⟨rfl, fun hk hd => ⟨fun hlen => ?_, fun hlen => ?_⟩⟩
  · simp [check_role_assume_role_policy_document, hk, hd, Bind.bind, Except.bind,
          Pure.pure, Except.pure, Nat.not_lt.mpr hlen]
  · simp [check_role_assume_role_policy_document, hk, hd, Bind.bind, Except.bind,
          Pure.pure, Except.pure, hlen]

/-- C3 witness: a small trust-policy document serializing to 26
characters yields no violation. -/
theorem trust_policy_size_limit_witness :
    getKey [("AssumeRolePolicyDocument", CfnValue.map [("Version", CfnValue.str "2012-10-17")])]
        "AssumeRolePolicyDocument" =
      some (CfnValue.map [("Version", CfnValue.str "2012-10-17")]) ∧
    dumps (CfnValue.map [("Version", CfnValue.str "2012-10-17")]) =
      .ok "\x7b\"Version\": \"2012-10-17\"\x7d" ∧
    ("\x7b\"Version\": \"2012-10-17\"\x7d" : String).length ≤ 2048 ∧
    check_role_assume_role_policy_document
      [("AssumeRolePolicyDocument", CfnValue.map [("Version", CfnValue.str "2012-10-17")])]
      ["p"] cexCfn = .ok [] :=
  ⟨rfl, rfl, by decide,
    ((trust_policy_size_limit
        [("AssumeRolePolicyDocument", CfnValue.map [("Version", CfnValue.str "2012-10-17")])]
        ["p"] cexCfn cexCfn (CfnValue.map [("Version", CfnValue.str "2012-10-17")])
        "\x7b\"Version\": \"2012-10-17\"\x7d").2 rfl rfl).1 (by decide)⟩

/-- C4: dates serialize to their quoted ISO-8601 text and never fail;
serialization succeeds exactly on values free of non-serializable
objects; a non-serializable value produces a typed error that the
trust-policy predicate propagates to its caller; a serializable document
never makes the predicate raise; and the three list-length predicates
never raise at all. -/
theorem trust_policy_serialization_errors (y m d : Nat) (v document : CfnValue)
    (properties : List (String × CfnValue)) (path : List String) (cfn : Cfn) :
    dumps (CfnValue.date y m d) = .ok (jsonQuote (isoformat y m d)) ∧
    (dumps v).isOk = serializable v ∧
    (serializable v = false → ∃ e, dumps v = .error e) ∧
    (getKey properties "AssumeRolePolicyDocument" = some document →
      ((serializable document = false →
        ∃ e, check_role_assume_role_policy_document properties path cfn = .error e) ∧
       (serializable document = true →
        ∃ ms, check_role_assume_role_policy_document properties path cfn = .ok ms))) ∧
    (∀ c : Check, c ≠ Check.assumeRolePolicyDocument →
      (runCheck c properties path cfn).isOk = true) := by
  refine ⟨rfl, dumps_isOk v, ?_, fun hk => ⟨fun hs => ?_, fun hs => ?_⟩, ?_⟩
  · intro h
    exact exists_error_of_isOk_false _ (by rw [dumps_isOk]; exact h)
  · obtain ⟨e, he⟩ := exists_error_of_isOk_false (dumps document)
      (by rw [dumps_isOk]; exact hs)
    exact ⟨e, by simp [check_role_assume_role_policy_document, hk, he,
                       Bind.bind, Except.bind]⟩
  · obtain ⟨s, hsok⟩ := ok_of_isOk_true (dumps document)
      (by rw [dumps_isOk]; exact hs)
    refine ⟨if 2048 < s.length then
        [⟨path ++ ["AssumeRolePolicyDocument"],
          "Role trust policy JSON text cannot be longer than 2048 characters"⟩]
      else [], ?_⟩
    simp [check_role_assume_role_policy_document, hk, hsok,
          Bind.bind, Except.bind, Pure.pure, Except.pure]
  · intro c hc
    cases c with
    | assumeRolePolicyDocument => exact absurd rfl hc
    | managedPolicyArns => rfl
    | userGroups => rfl
    | instanceProfileRoles => rfl

/-- C4 witness: a trust-policy document holding a non-serializable object
(class name `set`) makes the predicate surface a typed error. -/
theorem trust_policy_serialization_errors_witness :
    getKey [("AssumeRolePolicyDocument", CfnValue.map [("k", CfnValue.other "set")])]
        "AssumeRolePolicyDocument" = some (CfnValue.map [("k", CfnValue.other "set")]) ∧
    serializable (CfnValue.map [("k", CfnValue.other "set")]) = false ∧
    ∃ e, check_role_assume_role_policy_document
      [("AssumeRolePolicyDocument", CfnValue.map [("k", CfnValue.other "set")])]
      ["p"] cexCfn = .error e :=
  ⟨rfl, rfl,
    ((trust_policy_serialization_errors 0 0 0 CfnValue.null
        (CfnValue.map [("k", CfnValue.other "set")])
        [("AssumeRolePolicyDocument", CfnValue.map [("k", CfnValue.other "set")])]
        ["p"] cexCfn).2.2.2.1 rfl).1 rfl⟩

theorem mpa_singleton_message (path : List String) (ps : PropertySet) (m : RuleMatch)
    (h : m ∈ mpaLoop path [ps]) :
    m.message = "IAM resources cannot have more than 10 ManagedPolicyArns" ∨
    ∃ sc, m.message =
      "IAM resources cannot have more than 10 ManagedPolicyArns when " ++ scenario_text sc := by
  simp only [mpaLoop, List.append_nil] at h
  cases hk : getKey ps.Object "ManagedPolicyArns" with
  | none => rw [hk] at h; simp at h
  | some v =>
      rw [hk] at h
      cases v with
      | list l =>
          by_cases hl : l.length > 10
          · cases hsc : ps.Scenario with
            | none =>
                rw [hsc] at h; simp [hl] at h
                exact Or.inl (by rw [h])
            | some sc =>
                rw [hsc] at h; simp [hl] at h
                exact Or.inr ⟨sc, by rw [h]⟩
          · simp [hl] at h
      | str s => simp at h
      | int i => simp at h
      | bool b => simp at h
      | null => simp at h
      | date y mo d => simp at h
      | map kvs => simp at h
      | other cls => simp at h

/-- C10: the dispatch table sends `ManagedPolicyArns` checking to the
User, Group and Role resource types, and every violation that check can
emit — whatever resource it is dispatched to — carries the one fixed base
message `IAM resources cannot have more than 10 ManagedPolicyArns`,
alone or followed by a scenario suffix; the text never varies with the
resource kind. -/
theorem mpa_message_resource_independent (properties : List (String × CfnValue))
    (path : List String) (cfn : Cfn) (m : RuleMatch) :
    Check.managedPolicyArns ∈ (typesTable.lookup "AWS::IAM::User").getD [] ∧
    Check.managedPolicyArns ∈ (typesTable.lookup "AWS::IAM::Group").getD [] ∧
    Check.managedPolicyArns ∈ (typesTable.lookup "AWS::IAM::Role").getD [] ∧
    (m ∈ check_managed_policy_arns properties path cfn →
      m.message = "IAM resources cannot have more than 10 ManagedPolicyArns" ∨
      ∃ sc, m.message =
        "IAM resources cannot have more than 10 ManagedPolicyArns when " ++ scenario_text sc) := by
  refine ⟨by decide, by decide, by decide, fun hm => ?_⟩
  unfold check_managed_policy_arns at hm
  split at hm
  · simp at hm
  · rw [mpaLoop_eq_bind, List.mem_flatMap] at hm
    obtain ⟨ps, _, hmem⟩ := hm
    exact mpa_singleton_message path ps m hmem

/-- C10 witness: the conditional violation of the counterexample template
carries the fixed base message followed by its scenario suffix. -/
theorem mpa_message_resource_independent_witness :
    (⟨["p", "ManagedPolicyArns"],
      "IAM resources cannot have more than 10 ManagedPolicyArns when when condition \"IsProd\" is True"⟩ : RuleMatch)
      ∈ check_managed_policy_arns cexProps ["p"] cexCfn ∧
    ((⟨["p", "ManagedPolicyArns"],
      "IAM resources cannot have more than 10 ManagedPolicyArns when when condition \"IsProd\" is True"⟩ : RuleMatch).message =
        "IAM resources cannot have more than 10 ManagedPolicyArns" ∨
     ∃ sc, (⟨["p", "ManagedPolicyArns"],
      "IAM resources cannot have more than 10 ManagedPolicyArns when when condition \"IsProd\" is True"⟩ : RuleMatch).message =
        "IAM resources cannot have more than 10 ManagedPolicyArns when " ++ scenario_text sc) :=
  ⟨by decide,
    (mpa_message_resource_independent cexProps ["p"] cexCfn
      ⟨["p", "ManagedPolicyArns"],
       "IAM resources cannot have more than 10 ManagedPolicyArns when when condition \"IsProd\" is True"⟩).2.2.2
      (by decide)⟩

theorem checksLoop_eq_of_ok (properties : List (String × CfnValue)) (path : List String)
    (cfn : Cfn) : ∀ cs : List Check,
    (∀ c ∈ cs, (runCheck c properties path cfn).isOk = true) →
    checksLoop properties path cfn cs =
      .ok (cs.flatMap fun c => runCheckOk c properties path cfn) := by
  intro cs
  induction cs with
  | nil => intro _; rfl
  | cons c cs ih =>
      intro h
      obtain ⟨ms, hms⟩ := ok_of_isOk_true _ (h c (by simp))
      have ht := ih fun c' hc' => h c' (by simp [hc'])
      simp [checksLoop, hms, ht, Bind.bind, Except.bind, Pure.pure, Except.pure,
            runCheckOk, List.flatMap_cons]

theorem resourcesLoop_eq_of_ok (cfn : Cfn) (checks : List Check) :
    ∀ rs : List (String × Resource),
    (∀ r ∈ rs, ∀ c ∈ checks,
      (runCheck c ((r.2).Properties.getD []) ["Resources", r.1, "Properties"] cfn).isOk = true) →
    resourcesLoop cfn checks rs =
      .ok (rs.flatMap fun nr => checks.flatMap fun c =>
        runCheckOk c ((nr.2).Properties.getD []) ["Resources", nr.1, "Properties"] cfn) := by
  intro rs
  induction rs with
  | nil => intro _; rfl
  | cons r rest ih =>
      intro h
      obtain ⟨name, robj⟩ := r
      have hc := checksLoop_eq_of_ok (robj.Properties.getD [])
        ["Resources", name, "Properties"] cfn checks
        (h (name, robj) (by simp))
      have ht := ih fun r' hr' => h r' (by simp [hr'])
      simp [resourcesLoop, hc, ht, Bind.bind, Except.bind, Pure.pure, Except.pure,
            List.flatMap_cons]

theorem check_role_isOk (properties : List (String × CfnValue)) (path : List String)
    (cfn : Cfn)
    (h : ∀ document, getKey properties "AssumeRolePolicyDocument" = some document →
      serializable document = true) :
    (check_role_assume_role_policy_document properties path cfn).isOk = true := by
  cases hk : getKey properties "AssumeRolePolicyDocument" with
  | none =>
      simp [check_role_assume_role_policy_document, hk, Except.isOk, Except.toBool]
  | some document =>
      obtain ⟨s, hs⟩ := ok_of_isOk_true (dumps document)
        (by rw [dumps_isOk]; exact h document hk)
      simp [check_role_assume_role_policy_document, hk, hs, Bind.bind, Except.bind,
            Pure.pure, Except.pure, Except.isOk, Except.toBool]

/-- C7: when every Role trust policy in the template is serializable, the
entry point succeeds and returns exactly the concatenation, over the fixed
dispatch table `User → [ManagedPolicyArns, Groups]`,
`Group → [ManagedPolicyArns]`, `Role → [ManagedPolicyArns,
AssumeRolePolicyDocument]`, `InstanceProfile → [Roles]` in that declared
order, of the selector's resources in return order, of the predicates in
declared order. -/
theorem dispatch_table_and_order (cfn : Cfn) (h : docsOk cfn) :
    matchRule cfn = .ok (
      ([("AWS::IAM::User", [Check.managedPolicyArns, Check.userGroups]),
        ("AWS::IAM::Group", [Check.managedPolicyArns]),
        ("AWS::IAM::Role", [Check.managedPolicyArns, Check.assumeRolePolicyDocument]),
        ("AWS::IAM::InstanceProfile", [Check.instanceProfileRoles])] :
        List (String × List Check)).flatMap fun tc =>
        (cfn.get_resources tc.1).flatMap fun nr =>
          tc.2.flatMap fun c =>
            runCheckOk c ((nr.2).Properties.getD []) ["Resources", nr.1, "Properties"] cfn) := by
  have hU := resourcesLoop_eq_of_ok cfn [Check.managedPolicyArns, Check.userGroups]
    (cfn.get_resources "AWS::IAM::User")
    (by intro r _ c hc
        simp at hc
        rcases hc with rfl | rfl <;> rfl)
  have hG := resourcesLoop_eq_of_ok cfn [Check.managedPolicyArns]
    (cfn.get_resources "AWS::IAM::Group")
    (by intro r _ c hc
        simp at hc
        subst hc; rfl)
  have hR := resourcesLoop_eq_of_ok cfn [Check.managedPolicyArns, Check.assumeRolePolicyDocument]
    (cfn.get_resources "AWS::IAM::Role")
    (by intro r hr c hc
        simp at hc
        rcases hc with rfl | rfl
        · rfl
        · exact check_role_isOk _ _ cfn fun document hd => h r hr document hd)
  have hI := resourcesLoop_eq_of_ok cfn [Check.instanceProfileRoles]
    (cfn.get_resources "AWS::IAM::InstanceProfile")
    (by intro r _ c hc
        simp at hc
        subst hc; rfl)
  simp [matchRule, typesTable, typesLoop, hU, hG, hR, hI,
        Bind.bind, Except.bind, Pure.pure, Except.pure, List.flatMap_cons,
        List.flatMap_nil, List.append_nil, List.append_assoc]

/-- C7 witness: on a template holding one `AWS::IAM::InstanceProfile`
with two roles (and no Role resources, so the serializability premise is
immediate), the dispatcher returns the single ordered violation. -/
theorem dispatch_table_and_order_witness :
    docsOk ipCfn ∧
    matchRule ipCfn =
      .ok [⟨["Resources", "IP", "Properties", "Roles"],
           "InstanceProfile can only have one role attached"⟩] :=
  ⟨by intro nr hnr document hd; simp [ipCfn] at hnr,
    dispatch_table_and_order ipCfn
      (by intro nr hnr document hd; simp [ipCfn] at hnr)⟩

/-- C8: end-to-end, a template with one `AWS::IAM::User` named `MyUser`
whose `ManagedPolicyArns` is an unconditional list of 11 entries yields
exactly one violation, at
`["Resources", "MyUser", "Properties", "ManagedPolicyArns"]`, with the
unconditional base message. -/
theorem user_eleven_arns_end_to_end :
    matchRule myUserCfn =
      .ok [⟨["Resources", "MyUser", "Properties", "ManagedPolicyArns"],
           "IAM resources cannot have more than 10 ManagedPolicyArns"⟩] := by
  rfl

/-- C9: the evaluation entry point is a pure function of the template
model: two invocations on the same unmutated model return identical
ordered violation sequences. -/
theorem evaluate_deterministic (cfn : Cfn) :
    (evaluateTwice cfn).1 = (evaluateTwice cfn).2 := rfl

end IamLimits
